import Mathlib

/-!
Shallow embedding of the Guardian Safe lock controller
(src/pi/guardianBT.py): OTP verification, lock actuation and auto-close
timing, telemetry encoding and status notification.

Modelling conventions:
* The module-level mutable globals (`otp_verified`, `lock_open`,
  `current_otp`, `battery_percent`, `voltage`, `safe_status`, the status
  characteristic's cached `value`) become fields of a `SafeState` record
  threaded explicitly through each handler.
* A BLE OTP payload is a list of byte values (`List Nat`, each < 256);
  `OTPCharacteristic.WriteValue` decodes it with `chr` per byte, so the
  decoded Python string is exactly those code points.  Python's
  `str.isdigit` on code points below 256 accepts the ASCII digits 0-9 and
  the Latin-1 superscript digits U+00B9, U+00B2, U+00B3.
* Side effects (display feedback, relay GPIO writes, `time.sleep`,
  status notifications via `PropertiesChanged`, `GLib.timeout_add_seconds`)
  are recorded as an ordered `List Event` returned by each handler.
* Wall-clock time is a `now : Nat` field in seconds; `time.sleep(k)`
  advances it by `k`.  `GLib.timeout_add_seconds(15, auto_close_lock)`
  appends the absolute deadline `now + 15` to a `timers` list — the code
  never cancels a pending timeout, so the list models all live timers.
* `voltage` is stored as integer tenths of a volt (`int(voltage * 10)`),
  the only form the code ever encodes.
-/

namespace GuardianBT

/-- Observable side effects emitted by the handlers, in program order. -/
inductive Event where
  | display (line1 line2 : String)
  | gpio (high : Bool)
  | sleep (seconds : Nat)
  | notify (frameBytes : List Nat)
  | armTimer (seconds : Nat)
  deriving Repr, DecidableEq

/-- The module-level mutable state of guardianBT.py, plus the wall clock
and the set of live GLib timeouts. -/
structure SafeState where
  otp_verified : Bool
  lock_open : Bool
  current_otp : Option (List Nat)
  battery_percent : Int
  voltage_tenths : Nat
  safe_status : Nat
  allowed_phone_macs : List String
  status_value : List Nat
  timers : List Nat
  now : Nat
  deriving Repr, DecidableEq

/-- Module initialisation: `otp_verified = False`, `lock_open = False`,
`current_otp = None`, `battery_percent = 100`, `voltage = 12.0`,
`safe_status = 1`, the hardcoded `ALLOWED_PHONE_MACS`, and the status
characteristic's initial value `[0, 0, 100, 1, 0, 120]`. -/
def initState : SafeState :=
  { otp_verified := false
    lock_open := false
    current_otp := none
    battery_percent := 100
    voltage_tenths := 120
    safe_status := 1
    allowed_phone_macs := ["FC:93:6B:B4:08:0D", "A4:46:B4:2A:C1:F2"]
    status_value := [0, 0, 100, 1, 0, 120]
    timers := []
    now := 0 }

/-- Python `str.isdigit` restricted to one code point below 256:
true for ASCII `0`-`9` and for the Latin-1 superscripts
`¹` (U+00B9), `²` (U+00B2), `³` (U+00B3). -/
def char_isdigit (c : Nat) : Bool :=
  (48 ≤ c && c ≤ 57) || c == 0xB2 || c == 0xB3 || c == 0xB9

/-- Python `str.isdigit` on the decoded payload: false on the empty
string, otherwise every character passes `char_isdigit`. -/
def str_isdigit (s : List Nat) : Bool :=
  !s.isEmpty && s.all char_isdigit

/-- The decoded payload rendered as text (for the `display_message` call
that echoes the received OTP). -/
def payload_string (p : List Nat) : String :=
  String.mk (p.map Char.ofNat)

/-- The 6-byte status frame layout shared by
`StatusCharacteristic.ReadValue` and `StatusCharacteristic.update_status`:
`[verified, lock, clamp(battery), safe_status, voltage_hi, voltage_lo]`. -/
def encode_status (otpVerified lockOpen : Bool) (battery : Int)
    (safe : Nat) (voltageTenths : Nat) : List Nat :=
  [ if otpVerified then 1 else 0
  , if lockOpen then 1 else 0
  , (max 0 (min 100 battery)).toNat
  , safe
  , (voltageTenths >>> 8) &&& 0xFF
  , voltageTenths &&& 0xFF ]

/-- The status frame derived from the current state. -/
def frame (s : SafeState) : List Nat :=
  encode_status s.otp_verified s.lock_open s.battery_percent
    s.safe_status s.voltage_tenths

/-- `StatusCharacteristic.update_status`: recompute the frame from the
globals, store it as the characteristic value, and emit a
`PropertiesChanged` notification carrying it. -/
def update_status (s : SafeState) : SafeState × List Event :=
  ({ s with status_value := frame s }, [Event.notify (frame s)])

/-- `StatusCharacteristic.ReadValue`: recompute the frame from the
globals, cache it as the characteristic value, and return it. -/
def ReadValue (s : SafeState) : List Nat × SafeState :=
  (frame s, { s with status_value := frame s })

/-- `open_lock`: show "Opening Lock...", drive the relay high, sleep 2 s,
set `lock_open = True`, show "Lock Opened!", notify the status change,
and schedule `auto_close_lock` 15 s out (without cancelling any pending
timeout). -/
def open_lock (s : SafeState) : SafeState × List Event :=
  let s1 : SafeState := { s with now := s.now + 2, lock_open := true }
  ({ (update_status s1).1 with timers := s1.timers ++ [s1.now + 15] },
    [ Event.display "Opening Lock..." "Stand By"
    , Event.gpio true
    , Event.sleep 2
    , Event.display "Lock Opened!" "Remove Items" ]
    ++ (update_status s1).2
    ++ [Event.armTimer 15])

/-- `close_lock`: drive the relay low, set `lock_open = False`, show
"Lock Closed", and notify the status change.  (It does not touch
`otp_verified`.) -/
def close_lock (s : SafeState) : SafeState × List Event :=
  let s1 : SafeState := { s with lock_open := false }
  ((update_status s1).1,
    [Event.gpio false, Event.display "Lock Closed" "Ready"]
      ++ (update_status s1).2)

/-- `auto_close_lock`: if the lock is open, run `close_lock`, then reset
`otp_verified = False` and notify again; otherwise do nothing.  Returning
`False` in Python makes the timeout single-shot. -/
def auto_close_lock (s : SafeState) : SafeState × List Event :=
  if s.lock_open then
    let s2 : SafeState := { (close_lock s).1 with otp_verified := false }
    ((update_status s2).1, (close_lock s).2 ++ (update_status s2).2)
  else
    (s, [])

/-- A pending GLib timeout with the given absolute deadline fires: the
timeout is consumed, the clock reaches the deadline, and the
`auto_close_lock` callback runs. -/
def fire_timer (deadline : Nat) (s : SafeState) : SafeState × List Event :=
  auto_close_lock
    { s with timers := s.timers.erase deadline, now := max s.now deadline }

/-- `verify_otp`: echo the received code, then accept iff
`len(received_otp) == 6 and received_otp.isdigit()`.  On success store
`current_otp`, set `otp_verified = True`, notify, sleep 1 s, and run
`open_lock`; on failure report the error and leave every global
untouched. -/
def verify_otp (payload : List Nat) (s : SafeState) :
    Bool × SafeState × List Event :=
  if payload.length == 6 && str_isdigit payload then
    let s1 : SafeState :=
      { s with current_otp := some payload, otp_verified := true }
    let s2 : SafeState :=
      { (update_status s1).1 with now := (update_status s1).1.now + 1 }
    (true, (open_lock s2).1,
      [ Event.display "Verifying OTP" (payload_string payload)
      , Event.display "OTP Verified!" "Opening..." ]
      ++ (update_status s1).2
      ++ [Event.sleep 1]
      ++ (open_lock s2).2)
  else
    (false, s,
      [ Event.display "Verifying OTP" (payload_string payload)
      , Event.display "Invalid OTP" "Try Again" ])

/-- Sampler input for one run of `update_system_health`: either the outer
`try` fails (`/proc/uptime` unreadable), or it yields an uptime in
seconds together with the stored voltage tenths when `vcgencmd`
succeeded (`none` models the inner fallback to 12.0 V). -/
inductive HealthSample where
  | failure
  | ok (uptimeSeconds : Nat) (voltTenths : Option Nat)
  deriving Repr, DecidableEq

/-- `update_system_health`: on sampler failure substitute the defaults
`battery=100, voltage=12.0, safe_status=1`; on success derive the battery
from uptime drain (1 % per hour, capped at 100), take the sampled voltage
or the 12.0 V fallback, and mark the system active.  Lock and
verification state are untouched. -/
def update_system_health (sample : HealthSample) (s : SafeState) :
    SafeState :=
  match sample with
  | .failure =>
      { s with battery_percent := 100, voltage_tenths := 120,
               safe_status := 1 }
  | .ok up vt =>
      { s with battery_percent := (100 : Int) - min (up / 3600) 100,
               voltage_tenths := vt.getD 120,
               safe_status := 1 }

/-- ASCII "123456", the canonical valid OTP payload. -/
def otp123456 : List Nat := [49, 50, 51, 52, 53, 54]

/-- ASCII "654321", a second valid OTP payload. -/
def otp654321 : List Nat := [54, 53, 52, 51, 50, 49]

/-- Six `0xB2` bytes: decodes to six `²` (SUPERSCRIPT TWO) characters,
none of which is a decimal digit, yet Python `str.isdigit` accepts it. -/
def superscript_payload : List Nat := [178, 178, 178, 178, 178, 178]

/-- State after the first valid OTP arrives at `now = 0`. -/
def after_first_otp : SafeState := (verify_otp otp123456 initState).2.1

/-- The system idles until `now = 10` (no deadline has been reached). -/
def waited_until_10 : SafeState := { after_first_otp with now := 10 }

/-- State after a second valid OTP arrives at `now = 10`, while the lock
is still open from the first. -/
def after_second_otp : SafeState :=
  (verify_otp otp654321 waited_until_10).2.1

/-- A state in which a code has been verified and the lock stands open. -/
def verifiedOpenState : SafeState :=
  { initState with otp_verified := true, lock_open := true }

/-- A payload of 6 ASCII decimal digits passes the acceptance test of
`verify_otp`. -/
theorem valid_condition {p : List Nat} (hlen : p.length = 6)
    (hdig : ∀ c ∈ p, 48 ≤ c ∧ c ≤ 57) :
    (p.length == 6 && str_isdigit p) = true := by
  have hne : p.isEmpty = false := by
    cases p with
    | nil => simp at hlen
    | cons a l => rfl
  have hall : p.all char_isdigit = true := by
    rw [List.all_eq_true]
    intro c hc
    have h := hdig c hc
    simp only [char_isdigit, Bool.or_eq_true, Bool.and_eq_true,
      decide_eq_true_eq, beq_iff_eq]
    omega
  simp [str_isdigit, hlen, hne, hall]

/-- Masking with `0xFF` is reduction modulo `2 ^ 8`. -/
theorem land_byte (x : Nat) : x &&& 0xFF = x % 2 ^ 8 := by
  simpa using Nat.and_pow_two_sub_one_eq_mod x 8

/-- C1 (code_bug evidence): the payload of six `0xB2` bytes decodes to
six SUPERSCRIPT TWO characters — length 6 but no ASCII decimal digit
among them — yet `verify_otp` accepts it: it returns success, sets
`otp_verified`, opens the lock and arms an auto-close timer, because
Python `str.isdigit` accepts superscript digit characters. -/
theorem superscript_payload_accepted :
    superscript_payload.length = 6
    ∧ (∀ c ∈ superscript_payload, ¬(48 ≤ c ∧ c ≤ 57))
    ∧ (verify_otp superscript_payload initState).1 = true
    ∧ (verify_otp superscript_payload initState).2.1.otp_verified = true
    ∧ (verify_otp superscript_payload initState).2.1.lock_open = true
    ∧ (verify_otp superscript_payload initState).2.1.timers = [18] := by
  decide

/-- C3 (code_bug evidence): a first valid OTP at `now = 0` arms a timer
for `now = 18`; a second valid OTP at `now = 10`, with the lock still
open, arms a second timer for `now = 28` without cancelling the first —
two timers are live at once.  The first timer then fires at `now = 18`
and closes the lock only 8 s after the second OTP, before the claimed
15 s window from the second OTP has elapsed. -/
theorem stacked_timers_close_early :
    after_first_otp.timers = [18]
    ∧ waited_until_10.now = 10
    ∧ after_second_otp.lock_open = true
    ∧ after_second_otp.timers = [18, 28]
    ∧ (fire_timer 18 after_second_otp).1.lock_open = false
    ∧ (fire_timer 18 after_second_otp).1.otp_verified = false
    ∧ (fire_timer 18 after_second_otp).1.now = 18
    ∧ (fire_timer 18 after_second_otp).1.now < waited_until_10.now + 15 := by
  decide

/-- C5 counterexample: from a state where a code was verified and the
lock is open, the explicit close path (`close_lock`, as called on
shutdown) does NOT reset `otp_verified` — refuting the claim that an
explicit close request sets `otp_verified` to false. -/
theorem close_lock_keeps_verification :
    ¬((close_lock verifiedOpenState).1.otp_verified = false) := by
  decide

/-- C5 (amended): an explicit close request, from every starting state,
actuates the relay closed, leaves the state Locked, and emits a
status-changed notification carrying the resulting frame; `otp_verified`
is left unchanged (it is reset only on the auto-close path). -/
theorem close_lock_spec (s : SafeState) :
    (close_lock s).1.lock_open = false
    ∧ (close_lock s).1.otp_verified = s.otp_verified
    ∧ (close_lock s).1.battery_percent = s.battery_percent
    ∧ (close_lock s).1.voltage_tenths = s.voltage_tenths
    ∧ (close_lock s).1.safe_status = s.safe_status
    ∧ Event.gpio false ∈ (close_lock s).2
    ∧ Event.notify (frame (close_lock s).1) ∈ (close_lock s).2 := by
  simp [close_lock, update_status, frame, encode_status]

/-- C7: the status encoding is a deterministic 6-byte function of the
tracked fields: bytes 0 and 1 are the 0/1 flags, byte 2 is the battery
percentage clamped into 0..100 (with -5 ↦ 0 and 150 ↦ 100), byte 3 is
the safety status, and bytes 4 and 5 are the big-endian high and low
bytes (mod 2^8) of the integer voltage tenths. -/
theorem encode_status_spec (ov lo : Bool) (b : Int) (safe vt : Nat) :
    (encode_status ov lo b safe vt).length = 6
    ∧ (encode_status ov lo b safe vt).get? 0 = some (if ov then 1 else 0)
    ∧ (encode_status ov lo b safe vt).get? 1 = some (if lo then 1 else 0)
    ∧ (∃ y, (encode_status ov lo b safe vt).get? 2 = some y ∧ y ≤ 100
        ∧ (0 ≤ b → b ≤ 100 → (y : Int) = b))
    ∧ (encode_status ov lo (-5) safe vt).get? 2 = some 0
    ∧ (encode_status ov lo 150 safe vt).get? 2 = some 100
    ∧ (encode_status ov lo b safe vt).get? 3 = some safe
    ∧ (encode_status ov lo b safe vt).get? 4 = some (vt / 2 ^ 8 % 2 ^ 8)
    ∧ (encode_status ov lo b safe vt).get? 5 = some (vt % 2 ^ 8) := by
  refine ⟨rfl, rfl, rfl,
    ⟨(max 0 (min 100 b)).toNat, rfl, ?_, ?_⟩, ?_, ?_, rfl, ?_, ?_⟩
  · omega
  · intro h0 h100
    omega
  · rfl
  · rfl
  · simp [encode_status, Nat.shiftRight_eq_div_pow, land_byte]
  · simp [encode_status, land_byte]

/-- C8: the periodic health refresh mutates only the health fields —
lock, verification, stored OTP, timers and the cached characteristic
value are all untouched — and a sampler failure yields the documented
default reading battery=100, voltage=12.0 (120 tenths), safety=Active. -/
theorem update_system_health_spec (sample : HealthSample) (s : SafeState) :
    (update_system_health sample s).lock_open = s.lock_open
    ∧ (update_system_health sample s).otp_verified = s.otp_verified
    ∧ (update_system_health sample s).current_otp = s.current_otp
    ∧ (update_system_health sample s).timers = s.timers
    ∧ (update_system_health sample s).status_value = s.status_value
    ∧ (update_system_health sample s).now = s.now
    ∧ (update_system_health HealthSample.failure s).battery_percent = 100
    ∧ (update_system_health HealthSample.failure s).voltage_tenths = 120
    ∧ (update_system_health HealthSample.failure s).safe_status = 1 := by
  cases sample <;> simp [update_system_health]

/-- C9: a status read returns the frame derived from the current state,
leaves verification, lock and health fields unchanged, and a second
consecutive read returns the identical 6-byte frame. -/
theorem read_value_pure (s : SafeState) :
    (ReadValue s).1 = frame s
    ∧ (ReadValue s).2.otp_verified = s.otp_verified
    ∧ (ReadValue s).2.lock_open = s.lock_open
    ∧ (ReadValue s).2.battery_percent = s.battery_percent
    ∧ (ReadValue s).2.voltage_tenths = s.voltage_tenths
    ∧ (ReadValue s).2.safe_status = s.safe_status
    ∧ (ReadValue s).2.timers = s.timers
    ∧ (ReadValue (ReadValue s).2).1 = (ReadValue s).1
    ∧ (ReadValue s).1.length = 6 := by
  simp [ReadValue, frame, encode_status]

/-- C10: the verdict of `verify_otp` is a function of the payload alone —
two runs on the same payload from any two states (differing in
`current_otp`, the allow-list, or anything else) return the same result,
and re-submitting a payload right after a run of itself returns the same
result again, so a valid code is accepted arbitrarily many times and no
stored expected code influences the outcome. -/
theorem verify_otp_payload_only (p : List Nat) (s t : SafeState) :
    (verify_otp p s).1 = (verify_otp p t).1
    ∧ (verify_otp p (verify_otp p s).2.1).1 = (verify_otp p s).1 := by
  by_cases h : (p.length == 6 && str_isdigit p) = true
  · simp [verify_otp, h]
  · simp [verify_otp, h]

/-- C2: a payload of exactly 6 ASCII decimal digits is accepted:
`verify_otp` returns success, sets `otp_verified`, leaves the lock open,
and a subsequent status read returns a 6-byte frame whose byte 0 is 1. -/
theorem verify_otp_valid_opens (p : List Nat) (s : SafeState)
    (hlen : p.length = 6) (hdig : ∀ c ∈ p, 48 ≤ c ∧ c ≤ 57) :
    (verify_otp p s).1 = true
    ∧ (verify_otp p s).2.1.otp_verified = true
    ∧ (verify_otp p s).2.1.lock_open = true
    ∧ (ReadValue (verify_otp p s).2.1).1.length = 6
    ∧ (ReadValue (verify_otp p s).2.1).1.get? 0 = some 1 := by
  have hc := valid_condition hlen hdig
  simp [verify_otp, hc, open_lock, update_status, ReadValue, frame,
    encode_status]

/-- Witness for C2 at the concrete payload "123456". -/
theorem verify_otp_valid_opens_witness :
    otp123456.length = 6
    ∧ (verify_otp otp123456 initState).1 = true
    ∧ (ReadValue (verify_otp otp123456 initState).2.1).1.get? 0 =
        some 1 :=
  ⟨rfl,
    (verify_otp_valid_opens otp123456 initState rfl (by decide)).1,
    (verify_otp_valid_opens otp123456 initState rfl
      (by decide)).2.2.2.2⟩

/-- C4: when the auto-close callback fires with the lock open, the relay
is actuated closed, the new state is Locked with `otp_verified = false`,
a status-changed notification carrying the resulting frame is emitted,
and observably frame byte 1 goes from 1 to 0 while byte 0 goes to 0. -/
theorem auto_close_fires_closed (s : SafeState) (h : s.lock_open = true) :
    (auto_close_lock s).1.lock_open = false
    ∧ (auto_close_lock s).1.otp_verified = false
    ∧ Event.gpio false ∈ (auto_close_lock s).2
    ∧ Event.notify (frame (auto_close_lock s).1) ∈ (auto_close_lock s).2
    ∧ (frame s).get? 1 = some 1
    ∧ (frame (auto_close_lock s).1).get? 1 = some 0
    ∧ (frame (auto_close_lock s).1).get? 0 = some 0 := by
  simp [auto_close_lock, h, close_lock, update_status, frame,
    encode_status]

/-- Witness for C4 at a concrete verified-and-open state. -/
theorem auto_close_fires_closed_witness :
    verifiedOpenState.lock_open = true
    ∧ (auto_close_lock verifiedOpenState).1.lock_open = false
    ∧ (auto_close_lock verifiedOpenState).1.otp_verified = false
    ∧ (frame (auto_close_lock verifiedOpenState).1).get? 1 = some 0 :=
  ⟨rfl,
    (auto_close_fires_closed verifiedOpenState rfl).1,
    (auto_close_fires_closed verifiedOpenState rfl).2.1,
    (auto_close_fires_closed verifiedOpenState rfl).2.2.2.2.2.1⟩

/-- The full side-effect trace of a successful verification: echo and
feedback, a first notification (taken before the lock state changes),
the 1 s pause, then the two-phase open — "opening" feedback, relay high,
the 2 s settle delay, "opened" feedback, the open notification, and the
15 s auto-close timer. -/
theorem verify_otp_valid_trace (p : List Nat) (s : SafeState)
    (hc : (p.length == 6 && str_isdigit p) = true) :
    (verify_otp p s).2.2 =
      [ Event.display "Verifying OTP" (payload_string p)
      , Event.display "OTP Verified!" "Opening..."
      , Event.notify (encode_status true s.lock_open s.battery_percent
          s.safe_status s.voltage_tenths)
      , Event.sleep 1
      , Event.display "Opening Lock..." "Stand By"
      , Event.gpio true
      , Event.sleep 2
      , Event.display "Lock Opened!" "Remove Items"
      , Event.notify (encode_status true true s.battery_percent
          s.safe_status s.voltage_tenths)
      , Event.armTimer 15 ] := by
  simp [verify_otp, hc, open_lock, update_status, frame]

/-- C6: on a valid OTP with the lock initially Locked, the actuation is
two-phase in order: the "opening" feedback and the relay command precede
the 2 s settle delay, every notification emitted before the delay
carries `lock_open = 0`, and only after the delay are the "opened"
feedback and a notification with `lock_open = 1` (and `verified = 1`)
emitted. -/
theorem verify_otp_two_phase (p : List Nat) (s : SafeState)
    (hlen : p.length = 6) (hdig : ∀ c ∈ p, 48 ≤ c ∧ c ≤ 57)
    (hclosed : s.lock_open = false) :
    ∃ pre post : List Event,
      (verify_otp p s).2.2 = pre ++ [Event.sleep 2] ++ post
      ∧ Event.sleep 2 ∉ pre
      ∧ Event.display "Opening Lock..." "Stand By" ∈ pre
      ∧ Event.gpio true ∈ pre
      ∧ (∀ f, Event.notify f ∈ pre → f.get? 1 = some 0)
      ∧ Event.display "Lock Opened!" "Remove Items" ∈ post
      ∧ (∃ f, Event.notify f ∈ post ∧ f.get? 1 = some 1
          ∧ f.get? 0 = some 1) := by
  have htrace := verify_otp_valid_trace p s (valid_condition hlen hdig)
  refine ⟨
    [ Event.display "Verifying OTP" (payload_string p)
    , Event.display "OTP Verified!" "Opening..."
    , Event.notify (encode_status true s.lock_open s.battery_percent
        s.safe_status s.voltage_tenths)
    , Event.sleep 1
    , Event.display "Opening Lock..." "Stand By"
    , Event.gpio true ],
    [ Event.display "Lock Opened!" "Remove Items"
    , Event.notify (encode_status true true s.battery_percent
        s.safe_status s.voltage_tenths)
    , Event.armTimer 15 ], ?_, ?_, ?_, ?_, ?_, ?_, ?_⟩
  · rw [htrace]
    rfl
  · simp
  · simp
  · simp
  · intro f hf
    simp only [List.mem_cons, List.not_mem_nil, or_false] at hf
    rcases hf with h | h | h | h | h | h
    · exact Event.noConfusion h
    · exact Event.noConfusion h
    · injection h with h1
      rw [h1, hclosed]
      rfl
    · exact Event.noConfusion h
    · exact Event.noConfusion h
    · exact Event.noConfusion h
  · simp
  · exact ⟨encode_status true true s.battery_percent s.safe_status
        s.voltage_tenths, by simp, rfl, rfl⟩

/-- Witness for C6 at the concrete payload "123456" from the initial
(Locked) state. -/
theorem verify_otp_two_phase_witness :
    otp123456.length = 6 ∧ initState.lock_open = false
    ∧ (∃ pre post : List Event,
        (verify_otp otp123456 initState).2.2 =
            pre ++ [Event.sleep 2] ++ post
        ∧ Event.sleep 2 ∉ pre
        ∧ Event.display "Opening Lock..." "Stand By" ∈ pre
        ∧ Event.gpio true ∈ pre
        ∧ (∀ f, Event.notify f ∈ pre → f.get? 1 = some 0)
        ∧ Event.display "Lock Opened!" "Remove Items" ∈ post
        ∧ (∃ f, Event.notify f ∈ post ∧ f.get? 1 = some 1
            ∧ f.get? 0 = some 1)) :=
  ⟨rfl, rfl,
    verify_otp_two_phase otp123456 initState rfl (by decide) rfl⟩

end GuardianBT
